import Mathlib

/-!
Verification development for the RateSkills repository (skill assessment
lifecycle and aggregation engine).

The repository contains two parallel implementations:
* a Flask one: `app/models.py` (UserSkillRating, RatingHistory, ...),
  `app/services/rating_service.py`, `app/services/user_service.py`,
  `app/routes/manager_routes.py`, `app/routes/employee_routes.py`;
* a FastAPI one: `app/crud.py`, `app/api/endpoints/assessments.py`, operating
  on a `SkillAssessment` entity (whose model class is referenced but not
  present in the sources; its fields are taken from its uses in
  `crud.py`/`assessments.py`/`schemas.py`).

Database rows are modelled as plain structures, ORM sessions as explicit
stores, and each route/service call as a function `... → Except Err Store`
(an error result models an exception plus session rollback: nothing is
persisted).  SQL expressions (`func.avg`, filters) are modelled
denotationally over the row lists.  Timestamps and display rounding
(`round(x, 2)`) do not bear on any property proved here and are omitted;
averages and percentages are computed in `ℚ`.
-/

namespace RateSkills

/-- User roles. The Flask `users.role` enum has employee/manager/admin; the
FastAPI code additionally compares against the strings hr/director. -/
inductive Role
  | employee
  | manager
  | admin
  | hr
  | director
deriving DecidableEq

/-- Flask `user_skill_ratings.status` enum from `models.py`. The spec's
APPROVED is spelled `confirmed` here. -/
inductive RatingStatus
  | pending
  | confirmed
  | rejected
  | adjusted
deriving DecidableEq

/-- User row (`models.py` class User), restricted to the columns the
assessment lifecycle and authorization code reads. -/
structure Usr where
  id : Nat
  full_name : String
  role : Role
  department_id : Option Nat
  manager_id : Option Nat
  is_active : Bool
deriving DecidableEq

/-- Skill row (`models.py` class Skill), restricted to the columns read
by the lifecycle and aggregation code. -/
structure Skl where
  id : Nat
  name : String
  category_id : Option Nat
  is_active : Bool
deriving DecidableEq

/-- Rating row (`models.py` class UserSkillRating). Scores are 1-5 ints,
nullable ones are `Option Nat`. Timestamp columns are omitted. -/
structure UserSkillRating where
  id : Nat
  user_id : Nat
  skill_id : Nat
  self_score : Nat
  manager_score : Option Nat := none
  final_score : Option Nat := none
  status : RatingStatus := .pending
  notes : Option String := none
  manager_notes : Option String := none
  confirmed_by : Option Nat := none
deriving DecidableEq

/-- History row (`models.py` class RatingHistory). `action` is kept as the
string literal the source writes. -/
structure RatingHistoryRow where
  rating_id : Nat
  user_id : Nat
  changed_by_id : Nat
  action : String
  old_self_score : Option Nat := none
  new_self_score : Option Nat := none
  old_manager_score : Option Nat := none
  new_manager_score : Option Nat := none
  old_status : Option RatingStatus := none
  new_status : Option RatingStatus := none
  notes : String := ""
deriving DecidableEq

/-- Notification row (`models.py` class Notification), restricted to the
fields the lifecycle code writes. `ntype` is the `type` column. -/
structure Notif where
  user_id : Nat
  ntype : String
  title : String
  message : String
  sender_id : Option Nat := none
deriving DecidableEq

/-- RequiredDepartmentSkill row (`models.py`). -/
structure RequiredDepartmentSkill where
  department_id : Nat
  skill_id : Nat
  min_score : Nat := 3
  priority : Nat := 1
  is_required : Bool := true
deriving DecidableEq

/-- The Flask database state read and written by the lifecycle and
aggregation code. -/
structure Store where
  users : List Usr := []
  skills : List Skl := []
  ratings : List UserSkillRating := []
  required_skills : List RequiredDepartmentSkill := []
  history : List RatingHistoryRow := []
  notifications : List Notif := []
deriving DecidableEq

/-- Error outcomes of a route call. `internal` stands for an unhandled
exception turned into an HTTP 500 by the route's try/except (the session is
rolled back, so nothing is persisted). -/
inductive Err
  | validation
  | forbidden
  | notFound
  | internal
deriving DecidableEq

/-- Python truthiness-based `x or d` on a nullable score, as in
`rating.manager_score or rating.self_score` (`manager_routes.py`). -/
def or_truthy (o : Option Nat) (d : Nat) : Nat :=
  match o with
  | some v => if v == 0 then d else v
  | none => d

/-- UserSkillRating.effective_score (`models.py` lines 244-249):
`final_score if final_score else self_score` — Python truthiness, so a null
(or zero) `final_score` falls back to `self_score`.  Note the source never
consults `status` or `manager_score` here. -/
def UserSkillRating.effective_score (r : UserSkillRating) : Nat :=
  match r.final_score with
  | some v => if v == 0 then r.self_score else v
  | none => r.self_score

/-- Result of RatingService.create_or_update_rating: the returned rating and
the history rows the call appended. -/
structure UpsertResult where
  rating : UserSkillRating
  new_history : List RatingHistoryRow
deriving DecidableEq

/-- RatingService.create_or_update_rating (`rating_service.py` lines 11-70).
`existing` is the result of the (user_id, skill_id) lookup; `next_id` is the
id the database would assign to a newly inserted row.  Assigning a score
outside 1-5 raises ValueError in the model validator (`models.py`
validate_score) before anything is written, modelled as an error result.
On the update path the source appends an `updated` history row only when the
submitted score differs from the stored one, while `status` is forced to
`pending` unconditionally. -/
def create_or_update_rating (existing : Option UserSkillRating) (next_id : Nat)
    (user_id skill_id self_score : Nat) (notes : Option String) :
    Except String UpsertResult :=
  if self_score < 1 || self_score > 5 then
    .error "self_score must be between 1 and 5"
  else
    match existing with
    | some rating =>
        let old_self_score := rating.self_score
        let old_status := rating.status
        let rating := { rating with
          self_score := self_score,
          status := .pending,
          notes := match notes with
            | some n => some n
            | none => rating.notes }
        if old_self_score != self_score then
          .ok { rating := rating,
                new_history := [{ rating_id := rating.id, user_id := user_id,
                                  changed_by_id := user_id, action := "updated",
                                  old_self_score := some old_self_score,
                                  new_self_score := some self_score,
                                  old_status := some old_status,
                                  new_status := some .pending,
                                  notes := notes.getD "" }] }
        else
          .ok { rating := rating, new_history := [] }
    | none =>
        let rating : UserSkillRating := { id := next_id, user_id := user_id,
                                          skill_id := skill_id,
                                          self_score := self_score,
                                          notes := notes, status := .pending }
        .ok { rating := rating,
              new_history := [{ rating_id := rating.id, user_id := user_id,
                                changed_by_id := user_id, action := "created",
                                new_self_score := some self_score,
                                new_status := some .pending,
                                notes := notes.getD "" }] }

/-- Lookup of a user row by primary key (`User.query.get`). -/
def find_user (users : List Usr) (uid : Nat) : Option Usr :=
  users.find? (fun u => u.id == uid)

/-- Transitive-subordinate relation walked by the recursive `is_subordinate`
helper inside UserService.can_view_employee (`user_service.py` lines 80-89):
target is reachable from the manager through `manager_id` links over active
users. -/
inductive IsSubordinate (users : List Usr) : Nat → Nat → Prop
  | base {m : Nat} {u : Usr} : u ∈ users → u.is_active = true →
      u.manager_id = some m → IsSubordinate users m u.id
  | step {m t : Nat} {u : Usr} : u ∈ users → u.is_active = true →
      u.manager_id = some m → IsSubordinate users u.id t →
      IsSubordinate users m t

/-- UserService.can_manage_employee (`user_service.py` lines 94-107):
admins may manage anyone; a manager may manage a user exactly when that
user's `department_id` equals the manager's own; everyone else is denied.
The `manager_id` chain is never consulted. -/
def can_manage_employee (users : List Usr) (current_user : Usr)
    (employee_id : Nat) : Bool :=
  if current_user.role == .admin then true
  else if current_user.role == .manager then
    match find_user users employee_id with
    | none => false
    | some employee => employee.department_id == current_user.department_id
  else false

/-- Body of the JSON payload accepted by the rating-adjustment route
(`manager_routes.py` update_employee_rating): any subset of
manager_score / manager_notes / status. -/
structure RatingUpdateData where
  manager_score : Option Nat := none
  manager_notes : Option String := none
  status : Option RatingStatus := none
deriving DecidableEq

/-- Modelled from the spec: RatingUpdateSchema is imported by
`manager_routes.py` but its definition is absent from the sources, so its
validation rules are taken from the specification: scores must lie in
[1,5] ("score out of [1,5]" is a ValidationFailure) and "Reject requires a
non-empty reason; rejecting without one is a validation failure" — the
reviewer's reason travels in `manager_notes` on this route. -/
def rating_update_schema_valid (data : RatingUpdateData) : Bool :=
  (match data.manager_score with
   | none => true
   | some v => decide (1 ≤ v) && decide (v ≤ 5)) &&
  (match data.status with
   | some .rejected =>
       (match data.manager_notes with
        | none => false
        | some s => s != "")
   | _ => true)

/-- Field updates that update_employee_rating (`manager_routes.py` lines
164-178) applies to the rating row once the request has passed permission,
lookup and schema checks and contains no `manager_score` key: optional
manager_notes overwrite, optional status overwrite; on `confirmed` the
final_score is set to `manager_score or self_score` and confirmed_by
recorded; on `rejected` the final_score is cleared. -/
def apply_rating_update (rating : UserSkillRating) (data : RatingUpdateData)
    (current_user_id : Nat) : UserSkillRating :=
  let rating := match data.manager_notes with
    | some n => { rating with manager_notes := some n }
    | none => rating
  match data.status with
  | some st =>
      let rating := { rating with status := st }
      if st == .confirmed then
        { rating with
          final_score := some (or_truthy rating.manager_score rating.self_score),
          confirmed_by := some current_user_id }
      else if st == .rejected then
        { rating with final_score := none }
      else rating
  | none => rating

/-- Route PUT /employees/id/ratings/id — update_employee_rating
(`manager_routes.py` lines 134-225).  Checks, in source order: current user
lookup (a missing identity crashes on `current_user.role`, HTTP 500),
can_manage_employee (403), rating lookup and owner match (404), schema
validation (400).  A request carrying `manager_score` then evaluates
`datetime.utcnow()`, but `datetime` is never imported in manager_routes.py:
the NameError is caught by the route's except clause, the session is rolled
back and an HTTP 500 is returned with nothing persisted.  Otherwise the
update is applied, an `adjusted` history row is appended, and a
`rating_adjusted` notification for the employee is created (building its
message crashes if the skill row is missing).  Returns the new store and
the updated rating (the route body of the 200 response). -/
def update_employee_rating (s : Store) (current_user_id employee_id rating_id : Nat)
    (data : RatingUpdateData) : Except Err (Store × UserSkillRating) :=
  match find_user s.users current_user_id with
  | none => .error .internal
  | some current_user =>
    if !(can_manage_employee s.users current_user employee_id) then
      .error .forbidden
    else
      match s.ratings.find? (fun r => r.id == rating_id) with
      | none => .error .notFound
      | some rating =>
        if rating.user_id != employee_id then .error .notFound
        else if !(rating_update_schema_valid data) then .error .validation
        else
          let old_manager_score := rating.manager_score
          let old_status := rating.status
          match data.manager_score with
          | some _ => .error .internal
          | none =>
            let rating := apply_rating_update rating data current_user_id
            let hist : RatingHistoryRow :=
              { rating_id := rating.id, user_id := employee_id,
                changed_by_id := current_user_id, action := "adjusted",
                old_manager_score := old_manager_score,
                new_manager_score := rating.manager_score,
                old_status := some old_status,
                new_status := some rating.status,
                notes := data.manager_notes.getD "" }
            match s.skills.find? (fun sk => sk.id == rating.skill_id) with
            | none => .error .internal
            | some skill =>
              let notif : Notif :=
                { user_id := employee_id, ntype := "rating_adjusted",
                  title := "Оценка скорректирована",
                  message := current_user.full_name ++
                    " скорректировал вашу оценку навыка \x22" ++
                    skill.name ++ "\x22",
                  sender_id := some current_user_id }
              .ok ({ s with
                      ratings := s.ratings.map
                        (fun r => if r.id == rating_id then rating else r),
                      history := s.history ++ [hist],
                      notifications := s.notifications ++ [notif] },
                   rating)

/-- Route POST /employees/id/ratings/id/confirm — confirm_rating
(`manager_routes.py` lines 228-294).  After the same permission and lookup
checks it unconditionally sets status `confirmed` (there is no check of the
current status), sets `final_score := manager_score or self_score`, records
confirmed_by, appends a `confirmed` history row and notifies the employee. -/
def confirm_rating (s : Store) (current_user_id employee_id rating_id : Nat) :
    Except Err (Store × UserSkillRating) :=
  match find_user s.users current_user_id with
  | none => .error .internal
  | some current_user =>
    if !(can_manage_employee s.users current_user employee_id) then
      .error .forbidden
    else
      match s.ratings.find? (fun r => r.id == rating_id) with
      | none => .error .notFound
      | some rating =>
        if rating.user_id != employee_id then .error .notFound
        else
          let old_status := rating.status
          let rating := { rating with
            status := .confirmed,
            final_score := some (or_truthy rating.manager_score rating.self_score),
            confirmed_by := some current_user_id }
          let hist : RatingHistoryRow :=
            { rating_id := rating.id, user_id := employee_id,
              changed_by_id := current_user_id, action := "confirmed",
              old_status := some old_status,
              new_status := some .confirmed,
              notes := "Оценка подтверждена руководителем" }
          match s.skills.find? (fun sk => sk.id == rating.skill_id) with
          | none => .error .internal
          | some skill =>
            let notif : Notif :=
              { user_id := employee_id, ntype := "rating_confirmed",
                title := "Оценка подтверждена",
                message := current_user.full_name ++
                  " подтвердил вашу оценку навыка \x22" ++ skill.name ++ "\x22",
                sender_id := some current_user_id }
            .ok ({ s with
                    ratings := s.ratings.map
                      (fun r => if r.id == rating_id then rating else r),
                    history := s.history ++ [hist],
                    notifications := s.notifications ++ [notif] },
                 rating)

/-- Lookup of the unique rating row for a (user, skill) pair. -/
def rating_for (s : Store) (uid sid : Nat) : Option UserSkillRating :=
  s.ratings.find? (fun r => r.user_id == uid && r.skill_id == sid)

/-- Active employees of a department, as _get_department_skill_gaps queries
them (`rating_service.py` lines 679-683): is_active and role employee. -/
def department_employees (s : Store) (department_id : Nat) : List Usr :=
  s.users.filter (fun u => u.department_id == some department_id &&
    u.is_active && u.role == .employee)

/-- One entry of the skill-gap report (`rating_service.py` lines 701-708).
The gap percentage is kept exact in `ℚ`; the source's `round(x, 2)` display
rounding is not modelled. -/
structure SkillGap where
  skill_id : Nat
  skill_name : String
  min_score : Nat
  non_compliant_count : Nat
  total_employees : Nat
  gap_percentage : ℚ
deriving DecidableEq

/-- Loop body of RatingService._get_department_skill_gaps
(`rating_service.py` lines 673-708) for a single RequiredDepartmentSkill
row: skip it when the skill row is missing or the department has no active
employees; count an employee as non-compliant when they have no rating for
the skill or their `effective_score` is below `min_score` (note: the
source never looks at the rating's status here); report the skill only
when the resulting gap percentage exceeds 30. -/
def gap_for_required_skill (s : Store) (department_id : Nat)
    (rq : RequiredDepartmentSkill) : Option SkillGap :=
  match s.skills.find? (fun sk => sk.id == rq.skill_id) with
  | none => none
  | some skill =>
    let employees := department_employees s department_id
    if employees.isEmpty then none
    else
      let non_compliant_count := (employees.filter (fun e =>
        match rating_for s e.id skill.id with
        | none => true
        | some r => r.effective_score < rq.min_score)).length
      let gap_percentage : ℚ :=
        ((non_compliant_count : ℚ) / (employees.length : ℚ)) * 100
      if 30 < gap_percentage then
        some { skill_id := skill.id, skill_name := skill.name,
               min_score := rq.min_score,
               non_compliant_count := non_compliant_count,
               total_employees := employees.length,
               gap_percentage := gap_percentage }
      else none

/-- Stable insertion into a list sorted by descending gap percentage: the
inserted element (which comes earlier in the original order) is placed
before later elements with an equal key, matching the stability of
Python's `sorted(..., reverse=True)`. -/
def insert_gap_desc (g : SkillGap) : List SkillGap → List SkillGap
  | [] => [g]
  | h :: t =>
      if h.gap_percentage ≤ g.gap_percentage then g :: h :: t
      else h :: insert_gap_desc g t

/-- Stable sort by descending gap percentage, modelling
`sorted(gaps, key=lambda x: x['gap_percentage'], reverse=True)`. -/
def sort_gaps_desc : List SkillGap → List SkillGap
  | [] => []
  | h :: t => insert_gap_desc h (sort_gaps_desc t)

/-- RatingService._get_department_skill_gaps (`rating_service.py` lines
662-710): gaps over the department's RequiredDepartmentSkill rows, sorted
descending by gap percentage. -/
def get_department_skill_gaps (s : Store) (department_id : Nat) :
    List SkillGap :=
  sort_gaps_desc
    ((s.required_skills.filter
        (fun rq => rq.department_id == department_id)).filterMap
      (gap_for_required_skill s department_id))

/-- Result record of RatingService.get_user_stats, restricted to the fields
that do not need the category join (`by_category` and `last_assessment`
are omitted). `average_score` is the exact value of
`func.avg(UserSkillRating.effective_score)`; the source's `round(x, 2)` is
not modelled. -/
structure UserStatsResult where
  total_ratings : Nat
  average_score : ℚ
  pending_count : Nat
  confirmed_count : Nat
  rejected_count : Nat
deriving DecidableEq

/-- RatingService.get_user_stats (`rating_service.py` lines 216-277).
The average is `func.avg(UserSkillRating.effective_score)` — a CLASS-level
access of the hybrid property, which has no `@expression`.  At class level
`if self.final_score:` tests the truthiness of the InstrumentedAttribute,
which is always true, so the hybrid degenerates to the `final_score`
column and the query compiles to SQL `AVG(final_score)`: rows with a NULL
`final_score` are skipped by AVG, whatever their status, and when every
row is NULL the `.scalar() or 0` turns the NULL aggregate into 0.  The
status counts and the early return for a user with no ratings are
unaffected. -/
def get_user_stats (s : Store) (user_id : Nat) : UserStatsResult :=
  let ratings := s.ratings.filter (fun r => r.user_id == user_id)
  if ratings.length == 0 then
    { total_ratings := 0, average_score := 0, pending_count := 0,
      confirmed_count := 0, rejected_count := 0 }
  else
    let final_scores := ratings.filterMap (fun r => r.final_score)
    { total_ratings := ratings.length,
      average_score :=
        if final_scores.isEmpty then 0
        else ((final_scores.map (fun v => (v : ℚ))).sum) /
          (final_scores.length : ℚ),
      pending_count := (ratings.filter (fun r => r.status == .pending)).length,
      confirmed_count :=
        (ratings.filter (fun r => r.status == .confirmed)).length,
      rejected_count :=
        (ratings.filter (fun r => r.status == .rejected)).length }

/-- Per-employee cell of the Flask comparison matrix
(`rating_service.py` lines 385-390). -/
structure ComparisonEmployeeEntry where
  employee_id : Nat
  score : Option Nat
  status : Option RatingStatus
  employee_name : String
deriving DecidableEq

/-- Per-skill row of the Flask comparison matrix (`rating_service.py`
lines 369-399; the category-name denormalisation is omitted). -/
structure ComparisonSkillData where
  skill_id : Nat
  skill_name : String
  category_id : Option Nat
  employees : List ComparisonEmployeeEntry
  has_differences : Bool
deriving DecidableEq

/-- Return value of RatingService.compare_employees: the comparison rows
plus the stats block (the employee dicts it also returns are omitted). -/
structure ComparisonOutput where
  comparison : List ComparisonSkillData
  total_skills : Nat
  skills_with_differences : Nat
deriving DecidableEq

/-- RatingService.compare_employees (`rating_service.py` lines 345-415):
fewer than two employee ids is a ValueError ("At least two employees
required for comparison"), as is an id not matching an active user; then
every active skill (optionally restricted to one category) produces a row
of each employee's `effective_score` (regardless of status), with
`has_differences` true when at least two distinct scores are present;
with `show_differences` set, rows without differences are dropped. -/
def compare_employees (s : Store) (employee_ids : List Nat)
    (show_differences : Bool) (category_id : Option Nat) :
    Except String ComparisonOutput :=
  if employee_ids.length < 2 then
    .error "At least two employees required for comparison"
  else
    let employees := s.users.filter (fun u =>
      employee_ids.contains u.id && u.is_active)
    if employees.length != employee_ids.length then
      .error "Some employees not found"
    else
      let skls := s.skills.filter (fun sk => sk.is_active &&
        (match category_id with
         | none => true
         | some c => sk.category_id == some c))
      let comparison_data := skls.filterMap (fun sk =>
        let entries : List ComparisonEmployeeEntry := employees.map (fun e =>
          let rating := rating_for s e.id sk.id
          { employee_id := e.id,
            score := rating.map (fun r => r.effective_score),
            status := rating.map (fun r => r.status),
            employee_name := e.full_name })
        let all_scores := entries.filterMap (fun en => en.score)
        let has_differences := all_scores.eraseDups.length > 1
        if !show_differences || has_differences then
          some { skill_id := sk.id, skill_name := sk.name,
                 category_id := sk.category_id,
                 employees := entries, has_differences := has_differences }
        else none)
      .ok { comparison := comparison_data,
            total_skills := comparison_data.length,
            skills_with_differences :=
              (comparison_data.filter (fun d => d.has_differences)).length }

/-- Status strings written by the FastAPI implementation
(`assessments.py`/`crud.py`): pending / approved / rejected. -/
inductive AStatus
  | pending
  | approved
  | rejected
deriving DecidableEq

/-- String form of an AStatus, as interpolated into `change_type` and
notification messages. -/
def astatus_str : AStatus → String
  | .pending => "pending"
  | .approved => "approved"
  | .rejected => "rejected"

/-- Python `status.capitalize()` on the three status strings. -/
def astatus_cap : AStatus → String
  | .pending => "Pending"
  | .approved => "Approved"
  | .rejected => "Rejected"

/-- SkillAssessment row of the FastAPI implementation.  Its model class is
referenced but missing from the sources; the fields are the ones
`crud.py`, `assessments.py` and `schemas.py` read and write (timestamps
omitted). -/
structure SkillAssessment where
  id : Nat
  user_id : Nat
  skill_id : Nat
  self_score : Nat
  manager_score : Option Nat := none
  status : AStatus := .pending
  comment : Option String := none
  reject_reason : Option String := none
  approved_by_id : Option Nat := none
deriving DecidableEq

/-- AssessmentHistory row of the FastAPI implementation, with the fields
`crud.py`/`assessments.py` write. -/
structure AssessmentHistoryRow where
  assessment_id : Nat
  old_score : Option Nat
  new_score : Option Nat
  changed_by_id : Nat
  change_type : String
  comment : Option String := none
deriving DecidableEq

/-- Notification as built by `assessments.py` (user_id, title, message,
notification_type, is_read). -/
structure FNotif where
  user_id : Nat
  title : String
  message : String
  notification_type : String
  is_read : Bool
deriving DecidableEq

/-- Department row, restricted to what the comparison endpoint reads. -/
structure Dept where
  id : Nat
  name : String
deriving DecidableEq

/-- Database state of the FastAPI implementation. -/
structure FStore where
  users : List Usr := []
  skills : List Skl := []
  departments : List Dept := []
  assessments : List SkillAssessment := []
  history : List AssessmentHistoryRow := []
  notifications : List FNotif := []
deriving DecidableEq

/-- check_manager_permission dependency (`auth.py` lines 93-100): the
request is rejected with 403 "Insufficient permissions" unless the caller's
role is manager, admin, hr or director. -/
def check_manager_permission (u : Usr) : Bool :=
  u.role == .manager || u.role == .admin || u.role == .hr || u.role == .director

/-- Mutation part of _update_assessment_status (`assessments.py` lines
542-581), reached once the assessment is found and the department check has
passed: build the history row (change_type "manager_approved" /
"manager_rejected", old and new score both the current self_score), set
the new status, overwrite the comment when a non-empty one was given
(Python `comment or assessment.comment`), on approval copy self_score into
manager_score and record approved_by, and create the notification (whose
message dereferences `assessment.skill.name`, so a missing skill row
raises and the request fails with nothing persisted). -/
def apply_status_update (s : FStore) (assessment : SkillAssessment)
    (st : AStatus) (comment : Option String) (current_user : Usr) :
    Except Err FStore :=
  match s.skills.find? (fun sk => sk.id == assessment.skill_id) with
  | none => .error .internal
  | some skill =>
    let hist : AssessmentHistoryRow :=
      { assessment_id := assessment.id,
        old_score := some assessment.self_score,
        new_score := some assessment.self_score,
        changed_by_id := current_user.id,
        change_type := "manager_" ++ astatus_str st,
        comment := some (match comment with
          | some c => if c == "" then astatus_cap st ++ " by manager" else c
          | none => astatus_cap st ++ " by manager") }
    let assessment := { assessment with
      status := st,
      comment := match comment with
        | some c => if c == "" then assessment.comment else some c
        | none => assessment.comment }
    let assessment :=
      if st == .approved then
        { assessment with
          manager_score := some assessment.self_score,
          approved_by_id := some current_user.id }
      else assessment
    let base := "Ваш навык " ++ skill.name ++ " был " ++ astatus_str st ++ "."
    let msg := match comment with
      | some c =>
          if c != "" && st == .rejected then base ++ " Причина: " ++ c
          else base
      | none => base
    let notif : FNotif :=
      { user_id := assessment.user_id,
        title := if st == .approved then "Оценка подтверждена"
                 else "Оценка отклонена",
        message := msg,
        notification_type := if st == .approved then "success" else "error",
        is_read := false }
    .ok { s with
          assessments := s.assessments.map
            (fun a => if a.id == assessment.id then assessment else a),
          history := s.history ++ [hist],
          notifications := s.notifications ++ [notif] }

/-- Helper _update_assessment_status (`assessments.py` lines 518-581).
Its `status` parameter shadows the imported fastapi `status` module, so
both intended HTTPException raises — the 404 for a missing assessment and
the 403 for a manager outside the owner's department — crash with
AttributeError while being built (`"approved".HTTP_404_NOT_FOUND`), which
FastAPI surfaces as an HTTP 500.  Both paths therefore model as `internal`:
the request still fails and nothing is persisted, but the error is not the
intended one.  There is no check of the assessment's current status. -/
def update_assessment_status_2 (s : FStore) (assessment_id : Nat)
    (st : AStatus) (comment : Option String) (current_user : Usr) :
    Except Err FStore :=
  match s.assessments.find? (fun a => a.id == assessment_id) with
  | none => .error .internal
  | some assessment =>
    if current_user.role == .manager then
      match find_user s.users assessment.user_id with
      | none => .error .internal
      | some user =>
        if user.department_id != current_user.department_id then
          .error .internal
        else apply_status_update s assessment st comment current_user
    else apply_status_update s assessment st comment current_user

/-- Endpoint POST /assessments/id/approve (`assessments.py` lines
488-498): check_manager_permission, then _update_assessment_status with
status "approved". -/
def approve_assessment_endpoint (s : FStore) (assessment_id : Nat)
    (comment : Option String) (current_user : Usr) : Except Err FStore :=
  if !(check_manager_permission current_user) then .error .forbidden
  else update_assessment_status_2 s assessment_id .approved comment current_user

/-- Endpoint POST /assessments/id/reject (`assessments.py` lines 500-516):
`comment` is a required parameter — a request without it is rejected by
FastAPI's validation (422) before the handler runs, modelled by the `none`
case — and an empty comment is rejected by the handler itself with 400
"Comment is required when rejecting"; only then is the status update
attempted. -/
def reject_assessment_endpoint (s : FStore) (assessment_id : Nat)
    (comment : Option String) (current_user : Usr) : Except Err FStore :=
  if !(check_manager_permission current_user) then .error .forbidden
  else
    match comment with
    | none => .error .validation
    | some c =>
      if c == "" then .error .validation
      else update_assessment_status_2 s assessment_id .rejected (some c) current_user

/-- Request body of POST /assessments/ (`schemas.py` SkillAssessmentCreate):
pydantic enforces 1 ≤ self_score ≤ 5 before the handler runs. -/
structure SkillAssessmentCreateData where
  user_id : Nat
  skill_id : Nat
  self_score : Nat
  comment : Option String := none
deriving DecidableEq

/-- Endpoint POST /assessments/ — create_assessment (`assessments.py` lines
120-208).  Pydantic rejects a self_score outside [1,5] (422); a missing
skill is 404; an employee may only create for themselves (403).  If an
assessment for the (user, skill) pair exists it is updated: history row of
type "self_update" recording old and new self_score is appended
unconditionally (even for an identical score), the score and comment are
overwritten and status is reset to "pending" while manager_score is left
untouched.  Otherwise a new pending assessment plus a "created" history row
is inserted.  Returns the new store and the returned assessment. -/
def create_assessment (s : FStore) (data : SkillAssessmentCreateData)
    (current_user : Usr) (next_id : Nat) :
    Except Err (FStore × SkillAssessment) :=
  if data.self_score < 1 || data.self_score > 5 then .error .validation
  else
    match s.skills.find? (fun sk => sk.id == data.skill_id) with
    | none => .error .notFound
    | some _skill =>
      if data.user_id != current_user.id && current_user.role == .employee then
        .error .forbidden
      else
        match s.assessments.find? (fun a =>
            a.user_id == data.user_id && a.skill_id == data.skill_id) with
        | some existing =>
          let old_score := existing.self_score
          let hist : AssessmentHistoryRow :=
            { assessment_id := existing.id, old_score := some old_score,
              new_score := some data.self_score,
              changed_by_id := current_user.id,
              change_type := "self_update", comment := data.comment }
          let existing := { existing with
            self_score := data.self_score,
            comment := data.comment,
            status := .pending }
          .ok ({ s with
                  assessments := s.assessments.map
                    (fun a => if a.id == existing.id then existing else a),
                  history := s.history ++ [hist] },
               existing)
        | none =>
          let assessment : SkillAssessment :=
            { id := next_id, user_id := data.user_id,
              skill_id := data.skill_id, self_score := data.self_score,
              manager_score := none, status := .pending,
              comment := data.comment }
          let hist : AssessmentHistoryRow :=
            { assessment_id := next_id, old_score := none,
              new_score := some data.self_score,
              changed_by_id := current_user.id,
              change_type := "created",
              comment := some "Initial self-assessment" }
          .ok ({ s with
                  assessments := s.assessments ++ [assessment],
                  history := s.history ++ [hist] },
               assessment)

/-- One entry of the FastAPI comparison response (`schemas.py`
ComparisonResult); `skill_scores` is kept as an association list. -/
structure ComparisonResultEntry where
  entity_id : Nat
  entity_name : String
  entity_type : String
  skill_scores : List (Nat × ℚ)
  average_score : ℚ
deriving DecidableEq

/-- Handler body of POST /assessments/compare — compare_assessments
(`assessments.py` lines 387-465, without the optional skill_ids filter,
which no claim exercises).  Only a request with BOTH lists empty is
rejected (400 "Provide either user_ids or department_ids"); any non-empty
user list — including a single user — is processed, silently skipping
unknown users and, for a manager caller, users outside their department.
Department comparison averages approved self_scores per skill over the
department's users.  Note the scores read are `self_score`, never
manager_score.  This body is UNREACHABLE in the running program: the
request-body validation of ComparisonRequest always crashes first (see
`comparison_request_validate`). -/
def compare_assessments_handler (s : FStore) (user_ids : List Nat)
    (department_ids : List Nat) (current_user : Usr) :
    Except Err (List ComparisonResultEntry) :=
  if user_ids.isEmpty && department_ids.isEmpty then .error .validation
  else if !user_ids.isEmpty then
    .ok (user_ids.filterMap (fun uid =>
      match find_user s.users uid with
      | none => none
      | some user =>
        if current_user.role == .manager &&
            user.department_id != current_user.department_id then none
        else
          let assessments := s.assessments.filter (fun a =>
            a.user_id == uid && a.status == .approved)
          let skill_scores := assessments.map (fun a =>
            (a.skill_id, (a.self_score : ℚ)))
          some { entity_id := uid, entity_name := user.full_name,
                 entity_type := "user",
                 skill_scores := skill_scores,
                 average_score :=
                   if skill_scores.isEmpty then 0
                   else (skill_scores.map Prod.snd).sum /
                     (skill_scores.length : ℚ) }))
  else
    .ok (department_ids.filterMap (fun dept_id =>
      match s.departments.find? (fun d => d.id == dept_id) with
      | none => none
      | some department =>
        if current_user.role == .manager &&
            current_user.department_id != some dept_id then none
        else
          let dept_assessments := s.assessments.filter (fun a =>
            a.status == .approved &&
            (match find_user s.users a.user_id with
             | some u => u.department_id == some dept_id
             | none => false))
          let skill_ids := (dept_assessments.map (fun a => a.skill_id)).eraseDups
          let skill_scores := skill_ids.map (fun sid =>
            let scores := (dept_assessments.filter
              (fun a => a.skill_id == sid)).map (fun a => (a.self_score : ℚ))
            (sid, scores.sum / (scores.length : ℚ)))
          some { entity_id := dept_id, entity_name := department.name,
                 entity_type := "department",
                 skill_scores := skill_scores,
                 average_score :=
                   if skill_scores.isEmpty then 0
                   else (skill_scores.map Prod.snd).sum /
                     (skill_scores.length : ℚ) }))

/-- Request-body validation of ComparisonRequest (`schemas.py` lines
315-329): its `@model_validator(mode='after')` dereferences `self.field1`,
a field that does not exist on the model, so validating ANY request body
raises AttributeError.  Pydantic only converts ValueError/AssertionError
into validation errors, so the exception propagates and FastAPI surfaces
it as an internal error (HTTP 500) before the handler runs. -/
def comparison_request_validate : Except Err Unit :=
  .error .internal

/-- Endpoint POST /assessments/compare as actually deployed: FastAPI
validates the ComparisonRequest body first, and that validation always
crashes (see `comparison_request_validate`), so every compare request —
whatever its entity lists — fails with an internal error and the handler
body `compare_assessments_handler` is never reached. -/
def compare_assessments (s : FStore) (user_ids : List Nat)
    (department_ids : List Nat) (current_user : Usr) :
    Except Err (List ComparisonResultEntry) :=
  match comparison_request_validate with
  | .error e => .error e
  | .ok _ => compare_assessments_handler s user_ids department_ids current_user

/-- Average-score computation of crud.get_user_stats (`crud.py` lines
646-652): the mean of `self_score` — not the effective score — over the
user's approved assessments, 0 when there are none.  Only the
average_score field of the returned dict is modelled here. -/
def crud_user_stats_average_score (s : FStore) (user_id : Nat) : ℚ :=
  let assessments := s.assessments.filter (fun a => a.user_id == user_id)
  let approved_assessments := assessments.filter (fun a => a.status == .approved)
  if approved_assessments.isEmpty then 0
  else
    ((approved_assessments.map (fun a => (a.self_score : ℚ))).sum) /
      (approved_assessments.length : ℚ)

/-- Effective score as the specification's sentence defines it, for
comparison with the source's `UserSkillRating.effective_score`:
manager_score when the status is APPROVED (spelled `confirmed` in the
Flask enum), otherwise self_score. -/
def effective_score_spec (r : UserSkillRating) : Option Nat :=
  if r.status == .confirmed then r.manager_score else some r.self_score

/-- Average score as the specification's sentence defines it, for
comparison with `get_user_stats`: mean of the effective score over the
user's APPROVED (confirmed) ratings only, 0 when there are none. -/
def user_stats_average_spec (s : Store) (uid : Nat) : ℚ :=
  let approved := s.ratings.filter (fun r =>
    r.user_id == uid && r.status == .confirmed)
  if approved.isEmpty then 0
  else ((approved.map (fun r => (r.effective_score : ℚ))).sum) /
    (approved.length : ℚ)

/-- Non-compliance count as the claim about skill_gap_analysis states it,
for comparison with `gap_for_required_skill`: employees without an
APPROVED (confirmed) assessment for the skill whose score meets
min_score. -/
def spec_non_compliant_count (s : Store) (department_id : Nat)
    (rq : RequiredDepartmentSkill) : Nat :=
  ((department_employees s department_id).filter (fun e =>
    match rating_for s e.id rq.skill_id with
    | none => true
    | some r =>
        !(r.status == .confirmed && rq.min_score ≤ r.effective_score))).length

/-- Demo employee: id 1 in department 1, reporting to user 2. -/
def demo_employee : Usr :=
  { id := 1, full_name := "Иванов Иван", role := .employee,
    department_id := some 1, manager_id := some 2, is_active := true }

/-- Demo manager of department 1. -/
def demo_manager : Usr :=
  { id := 2, full_name := "Петров Пётр", role := .manager,
    department_id := some 1, manager_id := none, is_active := true }

/-- Demo employee of department 2 who reports (via manager_id) to the
manager of department 1 — an indirect subordinate outside the manager's
department. -/
def demo_outsider : Usr :=
  { id := 3, full_name := "Сидоров Сидор", role := .employee,
    department_id := some 2, manager_id := some 2, is_active := true }

/-- Demo admin user. -/
def demo_admin : Usr :=
  { id := 4, full_name := "Админов Админ", role := .admin,
    department_id := none, manager_id := none, is_active := true }

/-- Demo skill. -/
def demo_skill : Skl :=
  { id := 5, name := "Python", category_id := some 1, is_active := true }

/-- Demo rating: employee 1 self-assessed skill 5 at 4, still pending. -/
def demo_rating : UserSkillRating :=
  { id := 10, user_id := 1, skill_id := 5, self_score := 4,
    status := .pending }

/-- Demo Flask store with a pending rating. -/
def demo_store : Store :=
  { users := [demo_employee, demo_manager, demo_outsider, demo_admin],
    skills := [demo_skill],
    ratings := [demo_rating],
    required_skills := [{ department_id := 1, skill_id := 5, min_score := 3 }] }

/-- Demo rating already confirmed with a manager score. -/
def demo_confirmed_rating : UserSkillRating :=
  { demo_rating with
    manager_score := some 5, final_score := some 5,
    status := .confirmed, confirmed_by := some 2 }

/-- Demo Flask store whose rating is already confirmed with a manager
score. -/
def demo_store_confirmed : Store :=
  { demo_store with ratings := [demo_confirmed_rating] }

/-- Demo Flask store where employee 1 has no rating at all for the
required skill. -/
def demo_store_norating : Store :=
  { demo_store with ratings := [] }

/-- The gap entry `get_department_skill_gaps demo_store_norating 1`
computes to: the sole employee lacks the required skill entirely. -/
def demo_gap : SkillGap :=
  { skill_id := 5, skill_name := "Python", min_score := 3,
    non_compliant_count := 1, total_employees := 1, gap_percentage := 100 }

/-- Rejection payload with no reviewer note at all. -/
def demo_reject_nodata : RatingUpdateData :=
  { status := some .rejected }

/-- Rating state reached from `demo_store` by confirming rating 10 and then
resubmitting a self-assessment of 2: this walks the actual operations and
extracts the resulting rating row. -/
def demo_resubmitted_rating : Option UserSkillRating :=
  match confirm_rating demo_store 2 1 10 with
  | .ok (s1, _) =>
    match rating_for s1 1 5 with
    | some r =>
      match create_or_update_rating (some r) 11 1 5 2 none with
      | .ok res => some res.rating
      | .error _ => none
    | none => none
  | .error _ => none

/-- The rating value that `demo_resubmitted_rating` computes to: status
reset to pending, self_score 2, but final_score still the previously
confirmed 4. -/
def demo_stale_rating : UserSkillRating :=
  { id := 10, user_id := 1, skill_id := 5, self_score := 2,
    manager_score := none, final_score := some 4, status := .pending,
    confirmed_by := some 2 }

/-- Demo Flask store in the state the confirm-then-resubmit trace leaves
behind: employee 1's only rating is `demo_stale_rating` (status pending,
self_score 2, stale final_score 4). -/
def demo_store_stale : Store :=
  { demo_store with ratings := [demo_stale_rating] }

/-- Demo FastAPI assessment owned by the department-2 outsider. -/
def demo_assessment : SkillAssessment :=
  { id := 20, user_id := 3, skill_id := 5, self_score := 4 }

/-- Demo FastAPI store. -/
def demo_fstore : FStore :=
  { users := [demo_employee, demo_manager, demo_outsider, demo_admin],
    skills := [demo_skill],
    assessments := [demo_assessment] }

/-- Demo FastAPI store with an approved assessment owned by employee 1. -/
def demo_fstore_approved : FStore :=
  { demo_fstore with
    assessments := [{ id := 21, user_id := 1, skill_id := 5, self_score := 4,
                      manager_score := some 4, status := .approved,
                      approved_by_id := some 2 }] }

/-- Rejection payload: status rejected with a non-empty reviewer note. -/
def demo_reject_data : RatingUpdateData :=
  { manager_notes := some "Оценка завышена", status := some .rejected }

/-- Result of the demo rejection, extracted from the route call (the
default is never used: the call succeeds). -/
def demo_reject_result : Store × UserSkillRating :=
  (update_employee_rating demo_store_confirmed 2 1 10 demo_reject_data).toOption.getD
    (demo_store_confirmed, demo_rating)

/-- Inserting preserves membership. -/
theorem mem_insert_gap_desc {g a : SkillGap} {l : List SkillGap} :
    a ∈ insert_gap_desc g l ↔ a = g ∨ a ∈ l := by
  induction l with
  | nil => simp [insert_gap_desc]
  | cons x t ih =>
    simp only [insert_gap_desc]
    split
    · simp [List.mem_cons]
    · simp only [List.mem_cons, ih]
      tauto

/-- Sorting preserves membership. -/
theorem mem_sort_gaps_desc {a : SkillGap} {l : List SkillGap} :
    a ∈ sort_gaps_desc l ↔ a ∈ l := by
  induction l with
  | nil => simp [sort_gaps_desc]
  | cons x t ih =>
    simp only [sort_gaps_desc, mem_insert_gap_desc, List.mem_cons, ih]

/-- Inserting into a descending-sorted list keeps it sorted. -/
theorem sorted_insert_gap_desc (g : SkillGap) {l : List SkillGap}
    (h : List.Sorted (fun a b : SkillGap => b.gap_percentage ≤ a.gap_percentage) l) :
    List.Sorted (fun a b : SkillGap => b.gap_percentage ≤ a.gap_percentage)
      (insert_gap_desc g l) := by
  induction l with
  | nil => simp [insert_gap_desc]
  | cons x t ih =>
    rw [List.sorted_cons] at h
    simp only [insert_gap_desc]
    split
    · rename_i hc
      rw [List.sorted_cons]
      refine ⟨?_, List.sorted_cons.mpr h⟩
      intro b hb
      rcases List.mem_cons.mp hb with hb | hb
      · exact hb ▸ hc
      · exact le_trans (h.1 b hb) hc
    · rename_i hc
      push_neg at hc
      rw [List.sorted_cons]
      refine ⟨?_, ih h.2⟩
      intro b hb
      rcases mem_insert_gap_desc.mp hb with hb | hb
      · exact hb ▸ le_of_lt hc
      · exact h.1 b hb

/-- The gap sort produces a list sorted by descending gap percentage. -/
theorem sorted_sort_gaps_desc (l : List SkillGap) :
    List.Sorted (fun a b : SkillGap => b.gap_percentage ≤ a.gap_percentage)
      (sort_gaps_desc l) := by
  induction l with
  | nil => simp [sort_gaps_desc]
  | cons x t ih => exact sorted_insert_gap_desc x ih

/-- Inversion of the skill-gap loop body: every reported gap exceeds the
30 threshold, carries the department head-count, and counts non-compliance
by `effective_score` against the requirement's min_score with no filter on
the rating's status. -/
theorem gap_for_required_skill_eq_some {s : Store} {d : Nat}
    {rq : RequiredDepartmentSkill} {g : SkillGap}
    (h : gap_for_required_skill s d rq = some g) :
    30 < g.gap_percentage ∧
    g.min_score = rq.min_score ∧
    g.skill_id = rq.skill_id ∧
    g.total_employees = (department_employees s d).length ∧
    0 < g.total_employees ∧
    g.non_compliant_count = ((department_employees s d).filter (fun e =>
      match rating_for s e.id rq.skill_id with
      | none => true
      | some r => r.effective_score < rq.min_score)).length ∧
    g.gap_percentage =
      ((g.non_compliant_count : ℚ) / (g.total_employees : ℚ)) * 100 := by
  unfold gap_for_required_skill at h
  rcases hfind : s.skills.find? (fun sk => sk.id == rq.skill_id) with _ | sk
  · rw [hfind] at h; exact absurd h (by simp)
  · rw [hfind] at h
    have hid : sk.id = rq.skill_id := by
      have := List.find?_some hfind
      simpa using this
    simp only at h
    split at h
    · exact absurd h (by simp)
    · rename_i hne
      split at h
      · rename_i hgt
        have hg := Option.some.inj h
        subst hg
        have hlen : 0 < (department_employees s d).length := by
          rcases hemp : department_employees s d with _ | ⟨u, us⟩
          · rw [hemp] at hne; simp at hne
          · simp
        refine ⟨hgt, rfl, hid, rfl, hlen, by rw [hid], rfl⟩
      · exact absurd h (by simp)

/-- C1: counterexample.  The claim says the effective score equals
manager_score when the status is APPROVED and self_score otherwise.
Walking the actual operations — confirm rating 10, then resubmit a
self-assessment of 2 — reaches a rating whose status is pending and whose
self_score is 2, yet whose effective score is 4 (the stale final_score),
while the claim's formula yields 2. -/
theorem C1_effective_score_counterexample :
    demo_resubmitted_rating = some demo_stale_rating ∧
    demo_stale_rating.status = .pending ∧
    demo_stale_rating.self_score = 2 ∧
    demo_stale_rating.effective_score = 4 ∧
    effective_score_spec demo_stale_rating = some 2 :=
  ⟨rfl, rfl, rfl, rfl, rfl⟩

/-- C1 (amended): the effective score that aggregation reads equals
`final_score` whenever that column is set (non-null — its value is 1-5,
hence truthy) and `self_score` otherwise, independent of `status` and
`manager_score`. -/
theorem C1_effective_score_amended (r : UserSkillRating) :
    (r.final_score = none → r.effective_score = r.self_score) ∧
    (∀ v : Nat, r.final_score = some v → v ≠ 0 → r.effective_score = v) := by
  constructor
  · intro h
    simp [UserSkillRating.effective_score, h]
  · intro v h hv
    simp [UserSkillRating.effective_score, h, hv]

/-- C1 witness: the amended statement evaluated on the stale rating. -/
theorem C1_effective_score_witness :
    demo_stale_rating.final_score = some 4 ∧
    demo_stale_rating.effective_score = 4 :=
  ⟨rfl, (C1_effective_score_amended demo_stale_rating).2 4 rfl (by decide)⟩

/-- C2: submitting a self-assessment over an existing APPROVED or REJECTED
assessment always leaves it PENDING with manager_score untouched, for every
score in [1,5] including one equal to the stored self_score — in the Flask
service (create_or_update_rating) and in the FastAPI endpoint
(create_assessment, given the owner submits for themselves, the skill
exists and the pair already has an assessment). -/
theorem C2_resubmit_forces_pending :
    (∀ (r : UserSkillRating) (next s : Nat) (notes : Option String),
      r.status = .confirmed ∨ r.status = .rejected → 1 ≤ s → s ≤ 5 →
      ∃ res : UpsertResult,
        create_or_update_rating (some r) next r.user_id r.skill_id s notes =
          .ok res ∧
        res.rating.status = .pending ∧
        res.rating.manager_score = r.manager_score ∧
        res.rating.self_score = s) ∧
    (∀ (fs : FStore) (data : SkillAssessmentCreateData) (cu : Usr)
      (next : Nat) (a : SkillAssessment) (sk : Skl),
      fs.skills.find? (fun x => x.id == data.skill_id) = some sk →
      data.user_id = cu.id →
      fs.assessments.find? (fun x =>
        x.user_id == data.user_id && x.skill_id == data.skill_id) = some a →
      a.status = .approved ∨ a.status = .rejected →
      1 ≤ data.self_score → data.self_score ≤ 5 →
      ∃ p : FStore × SkillAssessment,
        create_assessment fs data cu next = .ok p ∧
        p.2.status = .pending ∧
        p.2.manager_score = a.manager_score) := by
  constructor
  · intro r next s notes _hst h1 h5
    unfold create_or_update_rating
    have hc : ¬ ((s < 1 : Bool) || (s > 5 : Bool)) = true := by
      simp only [Bool.or_eq_true, decide_eq_true_eq]
      omega
    rw [if_neg hc]
    by_cases heq : r.self_score = s
    · have hb : (r.self_score != s) = false := by simp [heq]
      simp only [hb]
      exact ⟨_, rfl, rfl, rfl, rfl⟩
    · have hb : (r.self_score != s) = true := by simp [heq]
      simp only [hb]
      exact ⟨_, rfl, rfl, rfl, rfl⟩
  · intro fs data cu next a sk hskill howner hfind _hst h1 h5
    unfold create_assessment
    have hc : ¬ ((data.self_score < 1 : Bool) || (data.self_score > 5 : Bool)) = true := by
      simp only [Bool.or_eq_true, decide_eq_true_eq]
      omega
    rw [if_neg hc, hskill]
    have hp : ¬ ((data.user_id != cu.id) && (cu.role == Role.employee)) = true := by
      simp [howner]
    rw [if_neg hp, hfind]
    exact ⟨_, rfl, rfl, rfl⟩

/-- C2 witness: resubmitting the identical score 4 over a confirmed
rating on the service path. -/
theorem C2_resubmit_forces_pending_witness :
    ∃ res : UpsertResult,
      create_or_update_rating (some demo_confirmed_rating) 11
        demo_confirmed_rating.user_id demo_confirmed_rating.skill_id 4 none =
        .ok res ∧
      res.rating.status = .pending ∧
      res.rating.manager_score = demo_confirmed_rating.manager_score ∧
      res.rating.self_score = 4 :=
  C2_resubmit_forces_pending.1 demo_confirmed_rating 11 4 none (Or.inl rfl)
    (by decide) (by decide)

/-- C3: counterexample.  The claim says every successful submit over an
existing assessment appends exactly one `updated` history row, including a
score equal to the current self_score.  Resubmitting the stored score 4
over the demo rating succeeds but appends no history row at all
(`rating_service.py` guards the append with `old_self_score !=
self_score`). -/
theorem C3_history_counterexample :
    ∃ res : UpsertResult,
      create_or_update_rating (some demo_rating) 11 1 5 4 none = .ok res ∧
      res.new_history = [] ∧
      res.rating.status = .pending :=
  ⟨_, rfl, rfl, rfl⟩

/-- C3 (amended): a successful submit over an existing assessment appends
exactly one `updated` history row recording the old and new self_score and
the old and new status if and only if the submitted score differs from the
stored self_score; an identical resubmission still forces the status to
pending but writes no history row. -/
theorem C3_history_amended (r : UserSkillRating) (next s : Nat)
    (notes : Option String) (h1 : 1 ≤ s) (h5 : s ≤ 5) :
    ∃ res : UpsertResult,
      create_or_update_rating (some r) next r.user_id r.skill_id s notes =
        .ok res ∧
      res.rating.status = .pending ∧
      res.new_history =
        (if s = r.self_score then []
         else [{ rating_id := r.id, user_id := r.user_id,
                 changed_by_id := r.user_id, action := "updated",
                 old_self_score := some r.self_score,
                 new_self_score := some s,
                 old_status := some r.status,
                 new_status := some .pending,
                 notes := notes.getD "" }]) := by
  unfold create_or_update_rating
  have hc : ¬ ((s < 1 : Bool) || (s > 5 : Bool)) = true := by
    simp only [Bool.or_eq_true, decide_eq_true_eq]
    omega
  rw [if_neg hc]
  by_cases heq : r.self_score = s
  · have hb : (r.self_score != s) = false := by simp [heq]
    simp only [hb]
    refine ⟨_, rfl, rfl, ?_⟩
    rw [if_pos heq.symm]
  · have hb : (r.self_score != s) = true := by simp [heq]
    simp only [hb]
    refine ⟨_, rfl, rfl, ?_⟩
    rw [if_neg (fun hs => heq hs.symm)]

/-- C3 witness: submitting score 2 over the stored 4 appends the single
`updated` row. -/
theorem C3_history_witness :
    ∃ res : UpsertResult,
      create_or_update_rating (some demo_rating) 11 demo_rating.user_id
        demo_rating.skill_id 2 none = .ok res ∧
      res.rating.status = .pending ∧
      res.new_history =
        (if 2 = demo_rating.self_score then []
         else [{ rating_id := demo_rating.id, user_id := demo_rating.user_id,
                 changed_by_id := demo_rating.user_id, action := "updated",
                 old_self_score := some demo_rating.self_score,
                 new_self_score := some 2,
                 old_status := some demo_rating.status,
                 new_status := some .pending,
                 notes := Option.getD none "" }]) :=
  C3_history_amended demo_rating 11 2 none (by decide) (by decide)

/-- C4: a reject review with an empty or missing reason fails with a
validation error and (the call returning an error) leaves the store
untouched: no history row, no notification, no field change.  On the
FastAPI endpoint the missing `comment` parameter is a 422 and the empty
one a 400, both before any mutation; on the Flask route the
(spec-modelled) RatingUpdateSchema rejects a `rejected` status without a
non-empty manager_notes before any mutation. -/
theorem C4_reject_requires_reason :
    (∀ (fs : FStore) (aid : Nat) (c : Option String) (cu : Usr),
      check_manager_permission cu = true →
      c = none ∨ c = some "" →
      reject_assessment_endpoint fs aid c cu = .error .validation) ∧
    (∀ (s : Store) (cuid eid rid : Nat) (data : RatingUpdateData)
      (cu : Usr) (r : UserSkillRating),
      find_user s.users cuid = some cu →
      can_manage_employee s.users cu eid = true →
      s.ratings.find? (fun x => x.id == rid) = some r →
      r.user_id = eid →
      data.status = some .rejected →
      data.manager_notes = none ∨ data.manager_notes = some "" →
      update_employee_rating s cuid eid rid data = .error .validation) := by
  constructor
  · intro fs aid c cu hperm hc
    unfold reject_assessment_endpoint
    rcases hc with hc | hc <;> subst hc <;> simp [hperm]
  · intro s cuid eid rid data cu r hfu hcm hfr hu hst hnotes
    have hv : rating_update_schema_valid data = false := by
      unfold rating_update_schema_valid
      rw [hst]
      rcases hnotes with hn | hn <;> rw [hn] <;> simp
    unfold update_employee_rating
    simp only [hfu, hcm, hfr, hv]
    simp [hu]

/-- C4 witness: an empty FastAPI reject comment and a Flask reject without
manager_notes both fail with a validation error. -/
theorem C4_reject_requires_reason_witness :
    reject_assessment_endpoint demo_fstore 20 (some "") demo_manager =
      .error .validation ∧
    update_employee_rating demo_store 2 1 10 demo_reject_nodata =
      .error .validation :=
  ⟨C4_reject_requires_reason.1 demo_fstore 20 (some "") demo_manager
     (by decide) (Or.inr rfl),
   C4_reject_requires_reason.2 demo_store 2 1 10 demo_reject_nodata
     demo_manager demo_rating rfl (by decide) rfl rfl rfl (Or.inl rfl)⟩

/-- C5: counterexample.  The claim counts an employee as non-compliant
when they lack an APPROVED assessment meeting min_score.  In `demo_store`
the only employee has a PENDING rating with effective score 4 ≥ 3: the
claim's count is 1 (gap 100 > 30, so the skill should be reported), but
the source counts by `effective_score` alone, finds the employee
compliant, and reports no gap. -/
theorem C5_gap_counterexample :
    get_department_skill_gaps demo_store 1 = [] ∧
    spec_non_compliant_count demo_store 1
      { department_id := 1, skill_id := 5, min_score := 3 } = 1 ∧
    (department_employees demo_store 1).length = 1 ∧
    (30 : ℚ) < (1 : ℚ) / (1 : ℚ) * 100 := by
  refine ⟨?_, rfl, rfl, by norm_num⟩
  simp +decide [get_department_skill_gaps, gap_for_required_skill,
    department_employees, rating_for, UserSkillRating.effective_score,
    demo_store, demo_employee, demo_manager, demo_outsider, demo_admin,
    demo_skill, demo_rating, List.filterMap_cons, List.find?,
    sort_gaps_desc, insert_gap_desc]

/-- C5 (amended): skill_gap_analysis reports a required skill iff its gap
percentage exceeds 30, where non-compliance counts employees with no
rating for the skill or an `effective_score` below min_score — with no
condition on the rating's status — and the report is sorted in descending
order of gap percentage. -/
theorem C5_gap_amended :
    (∀ (s : Store) (d : Nat),
      List.Sorted (fun a b : SkillGap => b.gap_percentage ≤ a.gap_percentage)
        (get_department_skill_gaps s d)) ∧
    (∀ (s : Store) (d : Nat) (g : SkillGap),
      g ∈ get_department_skill_gaps s d →
      30 < g.gap_percentage ∧
      g.total_employees = (department_employees s d).length ∧
      0 < g.total_employees ∧
      g.gap_percentage =
        ((g.non_compliant_count : ℚ) / (g.total_employees : ℚ)) * 100 ∧
      ∃ rq ∈ s.required_skills,
        rq.department_id = d ∧ rq.skill_id = g.skill_id ∧
        g.min_score = rq.min_score ∧
        g.non_compliant_count = ((department_employees s d).filter (fun e =>
          match rating_for s e.id rq.skill_id with
          | none => true
          | some r => r.effective_score < rq.min_score)).length) ∧
    (∀ (s : Store) (d : Nat) (rq : RequiredDepartmentSkill) (sk : Skl),
      rq ∈ s.required_skills → rq.department_id = d →
      s.skills.find? (fun x => x.id == rq.skill_id) = some sk →
      ¬ ((department_employees s d).isEmpty = true) →
      (30 : ℚ) < ((((department_employees s d).filter (fun e =>
          match rating_for s e.id rq.skill_id with
          | none => true
          | some r => r.effective_score < rq.min_score)).length : ℚ) /
          ((department_employees s d).length : ℚ)) * 100 →
      ∃ g ∈ get_department_skill_gaps s d,
        g.skill_id = rq.skill_id ∧
        g.min_score = rq.min_score ∧
        g.non_compliant_count = ((department_employees s d).filter (fun e =>
          match rating_for s e.id rq.skill_id with
          | none => true
          | some r => r.effective_score < rq.min_score)).length ∧
        g.total_employees = (department_employees s d).length ∧
        g.gap_percentage =
          ((g.non_compliant_count : ℚ) / (g.total_employees : ℚ)) * 100) := by
  refine ⟨?_, ?_, ?_⟩
  · intro s d
    exact sorted_sort_gaps_desc _
  · intro s d g hg
    unfold get_department_skill_gaps at hg
    rw [mem_sort_gaps_desc] at hg
    rcases List.mem_filterMap.mp hg with ⟨rq, hrq_mem, hrq⟩
    have hfilter := List.mem_filter.mp hrq_mem
    have hdept : rq.department_id = d := by
      have h2 := hfilter.2
      simpa using h2
    obtain ⟨hgt, hmin, hskill, htot, hpos, hcount, hperc⟩ :=
      gap_for_required_skill_eq_some hrq
    exact ⟨hgt, htot, hpos, hperc, rq, hfilter.1, hdept, hskill.symm, hmin,
      hcount⟩
  · intro s d rq sk hmem hdept hsk hne hgt
    have hid : sk.id = rq.skill_id := by
      have := List.find?_some hsk
      simpa using this
    refine ⟨{ skill_id := rq.skill_id, skill_name := sk.name,
              min_score := rq.min_score,
              non_compliant_count := ((department_employees s d).filter
                (fun e =>
                  match rating_for s e.id rq.skill_id with
                  | none => true
                  | some r => r.effective_score < rq.min_score)).length,
              total_employees := (department_employees s d).length,
              gap_percentage := ((((department_employees s d).filter
                (fun e =>
                  match rating_for s e.id rq.skill_id with
                  | none => true
                  | some r => r.effective_score < rq.min_score)).length : ℚ) /
                ((department_employees s d).length : ℚ)) * 100 },
            ?_, rfl, rfl, rfl, rfl, rfl⟩
    unfold get_department_skill_gaps
    rw [mem_sort_gaps_desc]
    refine List.mem_filterMap.mpr
      ⟨rq, List.mem_filter.mpr ⟨hmem, by simp [hdept]⟩, ?_⟩
    unfold gap_for_required_skill
    simp only [hsk, hid]
    rw [if_neg hne, if_pos hgt]

/-- Evaluation of the gap report on the store without ratings: the single
employee is non-compliant, so the skill is reported with a 100 percent
gap. -/
theorem demo_gaps_norating_eval :
    get_department_skill_gaps demo_store_norating 1 = [demo_gap] := by
  simp +decide [get_department_skill_gaps, gap_for_required_skill,
    department_employees, rating_for, UserSkillRating.effective_score,
    demo_store_norating, demo_store, demo_employee, demo_manager,
    demo_outsider, demo_admin, demo_skill, demo_rating, demo_gap,
    List.filterMap_cons, List.find?, sort_gaps_desc, insert_gap_desc]

/-- C5 witness: with no rating at all, the single employee is
non-compliant and the skill is reported with a 100 percent gap. -/
theorem C5_gap_witness :
    demo_gap ∈ get_department_skill_gaps demo_store_norating 1 ∧
    (30 : ℚ) < demo_gap.gap_percentage :=
  ⟨by rw [demo_gaps_norating_eval]; exact List.mem_singleton.mpr rfl,
   (C5_gap_amended.2.1 demo_store_norating 1 demo_gap
     (by rw [demo_gaps_norating_eval]; exact List.mem_singleton.mpr rfl)).1⟩

/-- C6: counterexample.  The claim says average_score is the mean of the
effective score over APPROVED assessments only, 0 when there are none.
After the confirm-then-resubmit trace, employee 1's only rating is
PENDING with a stale final_score of 4; the program's AVG(final_score)
returns 4, while the claim's approved-only formula yields 0. -/
theorem C6_average_counterexample :
    (get_user_stats demo_store_stale 1).average_score = 4 ∧
    user_stats_average_spec demo_store_stale 1 = 0 ∧
    (get_user_stats demo_store_stale 1).average_score ≠
      user_stats_average_spec demo_store_stale 1 := by
  have h1 : (get_user_stats demo_store_stale 1).average_score = 4 := by
    simp +decide [get_user_stats, demo_store_stale, demo_store,
      demo_stale_rating]
  have h2 : user_stats_average_spec demo_store_stale 1 = 0 := by
    simp +decide [user_stats_average_spec, demo_store_stale, demo_store,
      demo_stale_rating]
  refine ⟨h1, h2, ?_⟩
  rw [h1, h2]
  norm_num

/-- C6 (amended): `rating_service.get_user_stats` computes average_score
as SQL AVG over the `final_score` column (the class-level hybrid access
degenerates to `final_score`): the mean of `final_score` over the user's
ratings that have one, with no condition on status — a stale final_score
on a PENDING rating still contributes — and 0 when no rating has a
final_score or the user has no ratings; the parallel `crud.get_user_stats`
averages `self_score` (not the effective score) over approved assessments
only, returning 0 when there are none. -/
theorem C6_average_amended :
    (∀ (s : Store) (uid : Nat),
      (get_user_stats s uid).average_score =
        (let ratings := s.ratings.filter (fun r => r.user_id == uid)
         let finals := ratings.filterMap (fun r => r.final_score)
         if ratings.isEmpty then 0
         else if finals.isEmpty then 0
         else ((finals.map (fun v => (v : ℚ))).sum) /
           (finals.length : ℚ))) ∧
    (∀ (fs : FStore) (uid : Nat),
      (fs.assessments.filter (fun a => a.user_id == uid)).filter
        (fun a => a.status == .approved) = [] →
      crud_user_stats_average_score fs uid = 0) := by
  constructor
  · intro s uid
    unfold get_user_stats
    rcases h : s.ratings.filter (fun r => r.user_id == uid) with _ | ⟨r, rs⟩ <;>
      simp only [h] <;> simp
  · intro fs uid h
    unfold crud_user_stats_average_score
    simp only [h, List.isEmpty_nil, if_true]

/-- C6 witness: a user with no approved assessments gets a zero crud
average, and the rating-service side evaluated on the demo store. -/
theorem C6_average_witness :
    crud_user_stats_average_score demo_fstore 1 = 0 :=
  C6_average_amended.2 demo_fstore 1 (by decide)

/-- C7: counterexample.  The claim says a review of an already-APPROVED
assessment (without an intervening self-update) fails with an
IllegalTransition error and changes nothing.  Confirming the
already-confirmed demo rating instead succeeds, re-confirms it and appends
another history row — no transition guard exists anywhere in the code. -/
theorem C7_transition_counterexample :
    ∃ p : Store × UserSkillRating,
      confirm_rating demo_store_confirmed 2 1 10 = .ok p ∧
      p.2.status = .confirmed ∧
      p.1.history.length = demo_store_confirmed.history.length + 1 :=
  ⟨_, rfl, rfl, rfl⟩

/-- C7 (amended): no status precondition is enforced anywhere.  A review —
approve or reject — succeeds on an assessment in any current status,
including already APPROVED or REJECTED, re-applying the decision and
appending another history row: shown for the Flask confirm route, the
Flask rejected-status update, the FastAPI approve endpoint and the FastAPI
reject endpoint (the latter two for an admin caller).  A Flask adjust
request that carries a manager_score always fails, on every status
including APPROVED, but with an internal error (manager_routes.py uses
`datetime` without importing it), not an IllegalTransition. -/
theorem C7_transition_amended :
    (∀ (s : Store) (cuid eid rid : Nat) (cu : Usr) (r : UserSkillRating)
      (sk : Skl),
      find_user s.users cuid = some cu →
      can_manage_employee s.users cu eid = true →
      s.ratings.find? (fun x => x.id == rid) = some r →
      r.user_id = eid →
      s.skills.find? (fun x => x.id == r.skill_id) = some sk →
      ∃ p : Store × UserSkillRating,
        confirm_rating s cuid eid rid = .ok p ∧
        p.2.status = .confirmed ∧
        p.1.history.length = s.history.length + 1) ∧
    (∀ (s : Store) (cuid eid rid : Nat) (data : RatingUpdateData)
      (cu : Usr) (r : UserSkillRating) (v : Nat),
      find_user s.users cuid = some cu →
      can_manage_employee s.users cu eid = true →
      s.ratings.find? (fun x => x.id == rid) = some r →
      r.user_id = eid →
      rating_update_schema_valid data = true →
      data.manager_score = some v →
      update_employee_rating s cuid eid rid data = .error .internal) ∧
    (∀ (fs : FStore) (aid : Nat) (c : Option String) (cu : Usr)
      (a : SkillAssessment) (sk : Skl),
      cu.role = .admin →
      fs.assessments.find? (fun x => x.id == aid) = some a →
      fs.skills.find? (fun x => x.id == a.skill_id) = some sk →
      ∃ fs' : FStore, approve_assessment_endpoint fs aid c cu = .ok fs' ∧
        fs'.history.length = fs.history.length + 1) ∧
    (∀ (fs : FStore) (aid : Nat) (c : String) (cu : Usr)
      (a : SkillAssessment) (sk : Skl),
      cu.role = .admin → c ≠ "" →
      fs.assessments.find? (fun x => x.id == aid) = some a →
      fs.skills.find? (fun x => x.id == a.skill_id) = some sk →
      ∃ fs' : FStore,
        reject_assessment_endpoint fs aid (some c) cu = .ok fs' ∧
        fs'.history.length = fs.history.length + 1) ∧
    (∀ (s : Store) (cuid eid rid : Nat) (cu : Usr) (r : UserSkillRating)
      (sk : Skl) (note : String),
      find_user s.users cuid = some cu →
      can_manage_employee s.users cu eid = true →
      s.ratings.find? (fun x => x.id == rid) = some r →
      r.user_id = eid →
      s.skills.find? (fun x => x.id == r.skill_id) = some sk →
      note ≠ "" →
      ∃ p : Store × UserSkillRating,
        update_employee_rating s cuid eid rid
          { manager_notes := some note, status := some .rejected } = .ok p ∧
        p.2.status = .rejected ∧
        p.1.history.length = s.history.length + 1) := by
  refine ⟨?_, ?_, ?_, ?_, ?_⟩
  · intro s cuid eid rid cu r sk hfu hcm hfr hu hsk
    unfold confirm_rating
    subst hu
    simp only [hfu, hcm, hfr, hsk, bne_self_eq_false]
    exact ⟨_, rfl, rfl, by simp⟩
  · intro s cuid eid rid data cu r v hfu hcm hfr hu hv hms
    unfold update_employee_rating
    subst hu
    simp only [hfu, hcm, hfr, hv, hms, bne_self_eq_false]
    simp
  · intro fs aid c cu a sk hrole hfa hsk
    have hperm : check_manager_permission cu = true := by
      simp [check_manager_permission, hrole]
    have hmgr : (cu.role == Role.manager) = false := by
      simp [hrole]
    unfold approve_assessment_endpoint update_assessment_status_2
      apply_status_update
    simp only [hperm, hfa, hmgr]
    rw [hsk]
    exact ⟨_, rfl, by simp⟩
  · intro fs aid c cu a sk hrole hc hfa hsk
    have hperm : check_manager_permission cu = true := by
      simp [check_manager_permission, hrole]
    have hmgr : (cu.role == Role.manager) = false := by
      simp [hrole]
    have hcb : (c == "") = false := by
      simp [hc]
    unfold reject_assessment_endpoint update_assessment_status_2
      apply_status_update
    simp only [hperm, hfa, hmgr, hcb]
    rw [hsk]
    exact ⟨_, rfl, by simp⟩
  · intro s cuid eid rid cu r sk note hfu hcm hfr hu hsk hnote
    have hv : rating_update_schema_valid
        { manager_notes := some note, status := some .rejected } = true := by
      simp [rating_update_schema_valid, hnote]
    have hb1 : (RatingStatus.rejected == RatingStatus.confirmed) = false := rfl
    have hb2 : (RatingStatus.rejected == RatingStatus.rejected) = true := rfl
    unfold update_employee_rating apply_rating_update
    subst hu
    simp only [hfu, hcm, hfr, hv, bne_self_eq_false, hb1, hb2,
      Bool.false_eq_true, if_false, if_true]
    rw [hsk]
    exact ⟨_, rfl, rfl, by simp⟩

/-- C7 witness: the amended statement applied to the already-confirmed
demo rating via the Flask confirm route. -/
theorem C7_transition_witness :
    ∃ p : Store × UserSkillRating,
      confirm_rating demo_store_confirmed 2 1 10 = .ok p ∧
      p.2.status = .confirmed ∧
      p.1.history.length = demo_store_confirmed.history.length + 1 :=
  C7_transition_amended.1 demo_store_confirmed 2 1 10 demo_manager
    demo_confirmed_rating demo_skill rfl (by decide) rfl rfl rfl

/-- Helper: a manager is never allowed to manage a user whose department
differs from their own, whatever the manager_id chain says. -/
theorem can_manage_employee_ne_dept {users : List Usr} {cu owner : Usr}
    {eid : Nat} (hrole : cu.role = .manager)
    (hfind : find_user users eid = some owner)
    (hdep : owner.department_id ≠ cu.department_id) :
    can_manage_employee users cu eid = false := by
  unfold can_manage_employee
  simp [hrole, hfind, hdep]

/-- C8: counterexample.  The claim says every cross-department review by a
manager is denied with an insufficient-permission error.  The refusal does
happen, but on the FastAPI status-update path the intended 403 raise
itself crashes (the `status` parameter shadows the fastapi `status`
module), so the caller sees an internal error, not a permission error —
here for an owner who IS the manager's transitive subordinate. -/
theorem C8_department_counterexample :
    IsSubordinate demo_fstore.users 2 3 ∧
    demo_manager.role = .manager ∧
    demo_outsider.department_id ≠ demo_manager.department_id ∧
    approve_assessment_endpoint demo_fstore 20 none demo_manager =
      .error .internal ∧
    Err.internal ≠ Err.forbidden := by
  refine ⟨?_, rfl, by decide, rfl, by decide⟩
  exact .base (u := demo_outsider) (by decide) rfl rfl

/-- C8 (amended): a manager reviewing an assessment whose owner is in a
different department is always refused with nothing mutated, even when the
owner is reachable through the transitive manager_id chain — with a 403
insufficient-permission error on the Flask routes, but with an internal
error (the crashed 403 raise) on the FastAPI status-update path. -/
theorem C8_department_amended :
    (∀ (users : List Usr) (cu : Usr) (eid : Nat) (owner : Usr),
      cu.role = .manager →
      find_user users eid = some owner →
      owner.department_id ≠ cu.department_id →
      IsSubordinate users cu.id eid →
      can_manage_employee users cu eid = false) ∧
    (∀ (s : Store) (cuid eid rid : Nat) (cu : Usr) (owner : Usr),
      find_user s.users cuid = some cu →
      cu.role = .manager →
      find_user s.users eid = some owner →
      owner.department_id ≠ cu.department_id →
      confirm_rating s cuid eid rid = .error .forbidden) ∧
    (∀ (fs : FStore) (aid : Nat) (c : Option String) (cu : Usr)
      (a : SkillAssessment) (owner : Usr),
      cu.role = .manager →
      fs.assessments.find? (fun x => x.id == aid) = some a →
      find_user fs.users a.user_id = some owner →
      owner.department_id ≠ cu.department_id →
      approve_assessment_endpoint fs aid c cu = .error .internal) := by
  refine ⟨?_, ?_, ?_⟩
  · intro users cu eid owner hrole hfind hdep _hsub
    exact can_manage_employee_ne_dept hrole hfind hdep
  · intro s cuid eid rid cu owner hfu hrole hfind hdep
    unfold confirm_rating
    simp only [hfu, can_manage_employee_ne_dept hrole hfind hdep]
    simp
  · intro fs aid c cu a owner hrole hfa hfind hdep
    have hperm : check_manager_permission cu = true := by
      simp [check_manager_permission, hrole]
    have hmgr : (cu.role == Role.manager) = true := by
      simp [hrole]
    have hbne : (owner.department_id != cu.department_id) = true := by
      simp [hdep]
    unfold approve_assessment_endpoint update_assessment_status_2
    simp only [hperm, hfa, hmgr, hfind, hbne]
    simp

/-- C8 witness: the amended statement applied to the demo manager and the
cross-department subordinate. -/
theorem C8_department_witness :
    can_manage_employee demo_store.users demo_manager 3 = false ∧
    confirm_rating demo_store 2 3 99 = .error .forbidden ∧
    approve_assessment_endpoint demo_fstore 20 none demo_manager =
      .error .internal :=
  ⟨C8_department_amended.1 demo_store.users demo_manager 3 demo_outsider rfl
     rfl (by decide) (.base (u := demo_outsider) (by decide) rfl rfl),
   C8_department_amended.2.1 demo_store 2 3 99 demo_manager demo_outsider
     rfl rfl rfl (by decide),
   C8_department_amended.2.2 demo_fstore 20 none demo_manager
     demo_assessment demo_outsider rfl rfl rfl (by decide)⟩

/-- C9: counterexample.  The claim says a compare call over fewer than
two entities fails with a validation error and returns no result.  A
single-user FastAPI compare call does fail and return no result — but
with an internal error, not a validation error: the ComparisonRequest
model validator crashes on the nonexistent self.field1 for every request,
before the handler runs. -/
theorem C9_compare_counterexample :
    compare_assessments demo_fstore_approved [1] [] demo_admin =
      .error .internal ∧
    Err.internal ≠ Err.validation :=
  ⟨rfl, by decide⟩

/-- C9 (amended): the Flask compare_employees raises a validation error
for fewer than two employees and returns no result; every request to the
FastAPI compare endpoint — with fewer than two entities or otherwise —
fails with an internal error and no result before the handler runs,
because the ComparisonRequest model validator dereferences the
nonexistent self.field1; the handler body behind that validator enforces
no at-least-two rule of its own: it rejects only a request with both
entity lists empty and, were it reachable, would return a single user's
lone comparison entry. -/
theorem C9_compare_amended :
    (∀ (s : Store) (ids : List Nat) (sd : Bool) (cat : Option Nat),
      ids.length < 2 →
      compare_employees s ids sd cat =
        .error "At least two employees required for comparison") ∧
    (∀ (fs : FStore) (user_ids department_ids : List Nat) (cu : Usr),
      compare_assessments fs user_ids department_ids cu = .error .internal) ∧
    (∀ (fs : FStore) (cu : Usr),
      compare_assessments_handler fs [] [] cu = .error .validation) ∧
    (∀ (fs : FStore) (uid : Nat) (cu : Usr) (u : Usr),
      find_user fs.users uid = some u →
      cu.role = .admin →
      ∃ res : ComparisonResultEntry,
        compare_assessments_handler fs [uid] [] cu = .ok [res] ∧
        res.entity_id = uid) := by
  refine ⟨?_, ?_, ?_, ?_⟩
  · intro s ids sd cat h
    unfold compare_employees
    rw [if_pos h]
  · intro fs user_ids department_ids cu
    rfl
  · intro fs cu
    rfl
  · intro fs uid cu u hfind hrole
    have hmgr : (cu.role == Role.manager) = false := by simp [hrole]
    unfold compare_assessments_handler
    simp only [hfind, hmgr, List.isEmpty_cons, List.filterMap_cons]
    simp

/-- C9 witness: the amended statement at concrete inputs: a one-element
Flask compare fails with the validation message, any FastAPI compare
request fails with the internal error, and the (unreachable) handler body
would accept a one-user request. -/
theorem C9_compare_witness :
    compare_employees demo_store [1] false none =
      .error "At least two employees required for comparison" ∧
    compare_assessments demo_fstore [] [] demo_admin = .error .internal ∧
    ∃ res : ComparisonResultEntry,
      compare_assessments_handler demo_fstore_approved [1] [] demo_admin =
        .ok [res] ∧ res.entity_id = 1 :=
  ⟨C9_compare_amended.1 demo_store [1] false none (by decide),
   C9_compare_amended.2.1 demo_fstore [] [] demo_admin,
   C9_compare_amended.2.2.2 demo_fstore_approved 1 demo_admin demo_employee
     rfl rfl⟩

/-- Helper: the field update applied on a `rejected` status clears
final_score and stores the rejected status. -/
theorem apply_rating_update_rejected (r : UserSkillRating)
    (data : RatingUpdateData) (cuid : Nat)
    (hst : data.status = some .rejected) :
    (apply_rating_update r data cuid).final_score = none ∧
    (apply_rating_update r data cuid).status = .rejected := by
  unfold apply_rating_update
  simp only [hst]
  split <;> simp_all

/-- C10: whenever the rating-adjustment route succeeds with a payload that
sets status `rejected`, the resulting rating has final_score cleared to
null, so its effective score equals self_score again: a rejected rating
never carries a previously confirmed score into aggregation. -/
theorem C10_reject_clears_final (s : Store) (cuid eid rid : Nat)
    (data : RatingUpdateData) (p : Store × UserSkillRating)
    (hst : data.status = some .rejected)
    (h : update_employee_rating s cuid eid rid data = .ok p) :
    p.2.final_score = none ∧
    p.2.status = .rejected ∧
    p.2.effective_score = p.2.self_score := by
  unfold update_employee_rating at h
  split at h
  · exact absurd h (by simp)
  · split at h
    · exact absurd h (by simp)
    · split at h
      · exact absurd h (by simp)
      · split at h
        · exact absurd h (by simp)
        · split at h
          · exact absurd h (by simp)
          · split at h
            · exact absurd h (by simp)
            · simp only [] at h
              split at h
              · exact absurd h (by simp)
              · rw [Except.ok.injEq] at h
                subst h
                refine ⟨(apply_rating_update_rejected _ data cuid hst).1,
                  (apply_rating_update_rejected _ data cuid hst).2, ?_⟩
                simp [UserSkillRating.effective_score,
                  (apply_rating_update_rejected _ data cuid hst).1]

/-- C10 witness: rejecting the confirmed demo rating through the route
clears its final_score and its effective score reverts to the
self_score. -/
theorem C10_reject_clears_final_witness :
    demo_reject_data.status = some RatingStatus.rejected ∧
    update_employee_rating demo_store_confirmed 2 1 10 demo_reject_data =
      .ok demo_reject_result ∧
    demo_reject_result.2.final_score = none ∧
    demo_reject_result.2.status = .rejected ∧
    demo_reject_result.2.effective_score = demo_reject_result.2.self_score := by
  refine ⟨rfl, rfl, ?_⟩
  exact C10_reject_clears_final demo_store_confirmed 2 1 10
    demo_reject_data demo_reject_result rfl rfl

end RateSkills
